import Mathlib

/-!
Verification of the terrain / coordinate-transform core of the Viimsi Parish
3D game client.  Numeric code is embedded over `ℚ` (exact arithmetic; the
source uses IEEE doubles, and every property checked here has a tolerance or
a discrete outcome that is insensitive to sub-tolerance rounding), with `ℝ`
used only where the source calls the transcendental functions
`Math.sin`, `Math.cos`, `Math.sqrt`.
-/

namespace VG

/-! ## Geographic bounds (ViimsiMapLoader constructor) -/

/-- Viimsi Parish boundaries, from the `ViimsiMapLoader` constructor. -/
structure GeoBounds where
  north : ℚ
  south : ℚ
  east : ℚ
  west : ℚ
deriving DecidableEq

/-- `this.viimsiParishBounds` in `ViimsiMapLoader`. -/
def viimsiParishBounds : GeoBounds :=
  { north := 59.5167, south := 59.4167, east := 24.8333, west := 24.7000 }

/-! ## CoordinateTransform (MapDataManager) -/

/-- `coordinateTransform.gameWorldSize` in the `MapDataManager` constructor. -/
def gameWorldSize : ℚ := 2000

/-- `MapDataManager.realWorldToGameWorld(lat, lon)` (part_002 lines 124-136):
normalize `(lat, lon)` over the parish bounds to `[0,1]` and scale to game
world coordinates `(-1000, 1000)`; returns `(gameX, gameZ)`. -/
def realWorldToGameWorld (lat lon : ℚ) : ℚ × ℚ :=
  let bounds := viimsiParishBounds
  let normalizedX := (lon - bounds.west) / (bounds.east - bounds.west)
  let normalizedZ := (lat - bounds.south) / (bounds.north - bounds.south)
  let gameX := (normalizedX - 0.5) * gameWorldSize
  let gameZ := (normalizedZ - 0.5) * gameWorldSize
  (gameX, gameZ)

/-- `MapDataManager.gameWorldToRealWorld(x, z)` (part_002 lines 144-156):
normalize game coordinates back to `[0,1]` and scale to real-world
coordinates; returns `(lat, lon)`. -/
def gameWorldToRealWorld (x z : ℚ) : ℚ × ℚ :=
  let bounds := viimsiParishBounds
  let normalizedX := x / gameWorldSize + 0.5
  let normalizedZ := z / gameWorldSize + 0.5
  let lon := bounds.west + normalizedX * (bounds.east - bounds.west)
  let lat := bounds.south + normalizedZ * (bounds.north - bounds.south)
  (lat, lon)

/-! ## Road width tables -/

/-- `MapDataManager.getRoadWidth(roadType)` (part_002 lines 277-291):
object-literal lookup with default 4. -/
def getRoadWidth (roadType : String) : ℚ :=
  if roadType = "motorway" then 12
  else if roadType = "trunk" then 10
  else if roadType = "primary" then 8
  else if roadType = "secondary" then 6
  else if roadType = "tertiary" then 5
  else if roadType = "residential" then 4
  else if roadType = "service" then 3
  else if roadType = "footway" then 1.5
  else if roadType = "path" then 1
  else 4

/-- `ViimsiMapLoader.estimateRoadWidth(highway)` (ViimsiMapLoader.js lines
592-605): object-literal lookup with default 4.  Note this table has no
`motorway` or `trunk` entry and differs from `getRoadWidth` on
`footway`, `cycleway` and `path`. -/
def estimateRoadWidth (highway : String) : ℚ :=
  if highway = "primary" then 8
  else if highway = "secondary" then 6
  else if highway = "tertiary" then 5
  else if highway = "residential" then 4
  else if highway = "service" then 3
  else if highway = "footway" then 2
  else if highway = "cycleway" then 2
  else if highway = "path" then 1.5
  else 4

/-! ## C1: coordinate round trip -/

/-- C1: for every `(lat, lon)` inside the parish bounding box,
`gameWorldToRealWorld (realWorldToGameWorld lat lon)` recovers the original
coordinates within 0.001 degrees (in exact arithmetic the round trip is the
identity, so the error is 0). -/
theorem C1_coordinate_roundtrip (lat lon : ℚ)
    (hlat1 : viimsiParishBounds.south ≤ lat)
    (hlat2 : lat ≤ viimsiParishBounds.north)
    (hlon1 : viimsiParishBounds.west ≤ lon)
    (hlon2 : lon ≤ viimsiParishBounds.east) :
    |(gameWorldToRealWorld (realWorldToGameWorld lat lon).1
        (realWorldToGameWorld lat lon).2).1 - lat| < 0.001 ∧
    |(gameWorldToRealWorld (realWorldToGameWorld lat lon).1
        (realWorldToGameWorld lat lon).2).2 - lon| < 0.001 := by
  have hlat : (gameWorldToRealWorld (realWorldToGameWorld lat lon).1
      (realWorldToGameWorld lat lon).2).1 = lat := by
    simp only [realWorldToGameWorld, gameWorldToRealWorld, viimsiParishBounds,
      gameWorldSize]
    norm_num
  have hlon : (gameWorldToRealWorld (realWorldToGameWorld lat lon).1
      (realWorldToGameWorld lat lon).2).2 = lon := by
    simp only [realWorldToGameWorld, gameWorldToRealWorld, viimsiParishBounds,
      gameWorldSize]
    norm_num
  rw [hlat, hlon]
  norm_num

/-- Witness for C1 at the concrete in-box point (59.47, 24.75). -/
theorem C1_coordinate_roundtrip_witness :
    |(gameWorldToRealWorld (realWorldToGameWorld 59.47 24.75).1
        (realWorldToGameWorld 59.47 24.75).2).1 - 59.47| < 0.001 ∧
    |(gameWorldToRealWorld (realWorldToGameWorld 59.47 24.75).1
        (realWorldToGameWorld 59.47 24.75).2).2 - 24.75| < 0.001 :=
  C1_coordinate_roundtrip 59.47 24.75
    (by norm_num [viimsiParishBounds]) (by norm_num [viimsiParishBounds])
    (by norm_num [viimsiParishBounds]) (by norm_num [viimsiParishBounds])

/-! ## C4: the two road width tables -/

/-- C4 counterexample: the two width tables disagree at `motorway`
(`estimateRoadWidth` has no motorway entry and falls to the default 4,
while `getRoadWidth` returns 12). -/
theorem C4_counterexample :
    estimateRoadWidth "motorway" = 4 ∧ getRoadWidth "motorway" = 12 ∧
    ¬ estimateRoadWidth "motorway" = getRoadWidth "motorway" := by
  refine ⟨by decide, by decide, by decide⟩

/-- C4 (amended): outside the five categories on which the tables genuinely
differ (`motorway`, `trunk`, `footway`, `cycleway`, `path`), the raw-data
layer table and the transform layer table agree; in particular both return
4 for `residential` and the default 4 for unknown categories. -/
theorem C4_width_tables_agree (c : String)
    (h : c ∉ (["motorway", "trunk", "footway", "cycleway", "path"] : List String)) :
    estimateRoadWidth c = getRoadWidth c := by
  simp only [List.mem_cons, List.not_mem_nil, or_false, not_or] at h
  obtain ⟨h1, h2, h3, h4, h5⟩ := h
  simp only [estimateRoadWidth, getRoadWidth, h1, h2, h3, h4, h5, if_false]

/-- Witness for C4 amended at `residential` (both tables give 4). -/
theorem C4_width_tables_agree_witness :
    estimateRoadWidth "residential" = getRoadWidth "residential" :=
  C4_width_tables_agree "residential" (by decide)

/-! ## TerrainSystem.sampleHeightmap -/

/-- JS raster read `this.heightmapData[i] || 0`: any out-of-range read yields
`undefined` and hence 0 (and a stored 0 stays 0). -/
def getSample (data : List ℚ) (i : ℤ) : ℚ :=
  if i < 0 then 0 else data.getD i.toNat 0

/-- `TerrainSystem.sampleHeightmap(u, v, size)` (part_004 lines 351-381):
clamp `u, v` to `[0,1]`, map to continuous grid coordinates, gather the four
surrounding samples (upper indices clamped to `size - 1`) and blend
bilinearly in each axis. -/
def sampleHeightmap (data : List ℚ) (u v : ℚ) (size : ℕ) : ℚ :=
  let uc := max 0 (min 1 u)
  let vc := max 0 (min 1 v)
  let x := uc * ((size : ℚ) - 1)
  let y := vc * ((size : ℚ) - 1)
  let x0 : ℤ := ⌊x⌋
  let y0 : ℤ := ⌊y⌋
  let x1 : ℤ := min (x0 + 1) ((size : ℤ) - 1)
  let y1 : ℤ := min (y0 + 1) ((size : ℤ) - 1)
  let fx := x - (x0 : ℚ)
  let fy := y - (y0 : ℚ)
  let h00 := getSample data (y0 * size + x0)
  let h10 := getSample data (y0 * size + x1)
  let h01 := getSample data (y1 * size + x0)
  let h11 := getSample data (y1 * size + x1)
  let h0 := h00 * (1 - fx) + h10 * fx
  let h1 := h01 * (1 - fx) + h11 * fx
  h0 * (1 - fy) + h1 * fy

/-- The 4x4 reference raster of the spec scenarios. -/
def demoRaster : List ℚ :=
  [0, 10, 20, 30, 5, 15, 25, 35, 10, 20, 30, 40, 15, 25, 35, 45]

lemma getSample_natIndex (data : List ℚ) (n : ℕ) :
    getSample data (n : ℤ) = data.getD n 0 := by
  simp [getSample]

/-! ## C2: bilinear sampling -/

/-- C2: `sampleHeightmap` is exact bilinear interpolation over the row-major
raster: the three reference values over the 4x4 demo raster hold, and at any
exact grid corner the raw corner sample is returned unmodified. -/
theorem C2_sampleHeightmap_bilinear :
    (sampleHeightmap demoRaster 0.5 0.5 4 = 22.5 ∧
     sampleHeightmap demoRaster 0 0 4 = 0 ∧
     sampleHeightmap demoRaster 1 1 4 = 45) ∧
    ∀ (data : List ℚ) (size i j : ℕ), i < size → j < size →
      sampleHeightmap data ((i : ℚ) / ((size : ℚ) - 1)) ((j : ℚ) / ((size : ℚ) - 1)) size
        = data.getD (j * size + i) 0 := by
  constructor
  · refine ⟨?_, ?_, ?_⟩ <;>
      norm_num [sampleHeightmap, getSample, demoRaster, min_def, max_def,
        List.getD, Int.toNat]
  · intro data size i j hi hj
    rcases Nat.lt_or_ge 1 size with h2 | h1
    · have hs0 : (0 : ℚ) < (size : ℚ) - 1 := by
        have h2q : (2 : ℚ) ≤ (size : ℚ) := by exact_mod_cast h2
        linarith
      have hi1 : (i : ℚ) ≤ (size : ℚ) - 1 := by
        have : ((i : ℚ) + 1) ≤ (size : ℚ) := by exact_mod_cast hi
        linarith
      have hj1 : (j : ℚ) ≤ (size : ℚ) - 1 := by
        have : ((j : ℚ) + 1) ≤ (size : ℚ) := by exact_mod_cast hj
        linarith
      have hui : max 0 (min 1 ((i : ℚ) / ((size : ℚ) - 1))) = (i : ℚ) / ((size : ℚ) - 1) := by
        rw [min_eq_right ((div_le_one hs0).mpr hi1)]
        exact max_eq_right (div_nonneg (Nat.cast_nonneg i) hs0.le)
      have hvj : max 0 (min 1 ((j : ℚ) / ((size : ℚ) - 1))) = (j : ℚ) / ((size : ℚ) - 1) := by
        rw [min_eq_right ((div_le_one hs0).mpr hj1)]
        exact max_eq_right (div_nonneg (Nat.cast_nonneg j) hs0.le)
      have hxi : (i : ℚ) / ((size : ℚ) - 1) * ((size : ℚ) - 1) = (i : ℚ) :=
        div_mul_cancel₀ _ (ne_of_gt hs0)
      have hxj : (j : ℚ) / ((size : ℚ) - 1) * ((size : ℚ) - 1) = (j : ℚ) :=
        div_mul_cancel₀ _ (ne_of_gt hs0)
      simp only [sampleHeightmap, hui, hvj, hxi, hxj, Int.floor_natCast,
        Int.cast_natCast, sub_self, mul_zero, add_zero, sub_zero, mul_one]
      have hidx : ((j : ℤ) * (size : ℤ) + (i : ℤ)) = ((j * size + i : ℕ) : ℤ) := by
        push_cast
        ring
      rw [hidx, getSample_natIndex]
    · have hsz : size = 1 := by omega
      subst hsz
      have hiz : i = 0 := by omega
      have hjz : j = 0 := by omega
      subst hiz
      subst hjz
      norm_num [sampleHeightmap, getSample]

/-- Witness for the corner clause of C2 at grid corner (2, 1) of the demo
raster (row-major index 6, value 25). -/
theorem C2_sampleHeightmap_bilinear_witness :
    sampleHeightmap demoRaster (((2 : ℕ) : ℚ) / (((4 : ℕ) : ℚ) - 1))
      (((1 : ℕ) : ℚ) / (((4 : ℕ) : ℚ) - 1)) 4 = demoRaster.getD (1 * 4 + 2) 0 :=
  C2_sampleHeightmap_bilinear.2 demoRaster 4 2 1 (by norm_num) (by norm_num)

/-! ## World-to-heightmap normalizations -/

/-- `TerrainSystem.config.worldSize` (part_004 line 18): 1000.  The adjacent
source comment says it matches MapDataManager, whose `gameWorldSize` is
2000. -/
def terrainWorldSize : ℚ := 1000

/-- `TerrainSystem.config.heightScale` (part_004 line 21). -/
def terrainHeightScale : ℚ := 100

/-- The normalization of a world coordinate into `[0,1]` heightmap space used
by `MapDataManager.getElevationAt` (part_002 lines 342-343:
`(x + 1000) / 2000`). -/
def mdmNormalize (w : ℚ) : ℚ := (w + 1000) / 2000

/-- The normalization of a world coordinate into heightmap `u`/`v` space used
by `TerrainSystem.applyElevationData` and `TerrainSystem.getHeightAt`
(part_004 lines 298-299 and 648-649:
`(x + this.config.worldSize / 2) / this.config.worldSize`). -/
def terrainNormalize (w : ℚ) : ℚ := (w + terrainWorldSize / 2) / terrainWorldSize

/-! ## MapDataManager.getElevationAt -/

/-- `MapDataManager.getElevationAt(x, z)` (part_002 lines 337-354): returns 0
when no elevation raster is loaded; otherwise converts the game world point to
a heightmap cell by normalizing `-1000..1000` to `[0,1]`, scaling by the
raster side length, flooring, clamping the cell indices to `[0, size - 1]`,
and reading the raster at that cell (`|| 0`). -/
def getElevationAt (elevation : Option (List ℚ)) (x z : ℚ) : ℚ :=
  match elevation with
  | none => 0
  | some data =>
    let size := Nat.sqrt data.length
    let normalizedX := mdmNormalize x
    let normalizedZ := mdmNormalize z
    let mapX : ℤ := ⌊normalizedX * size⌋
    let mapZ : ℤ := ⌊normalizedZ * size⌋
    let clampedX := max 0 (min ((size : ℤ) - 1) mapX)
    let clampedZ := max 0 (min ((size : ℤ) - 1) mapZ)
    getSample data (clampedZ * size + clampedX)

lemma clamped_cell_of_clamped_coord (w : ℚ) (size : ℕ) :
    max 0 (min ((size : ℤ) - 1) ⌊mdmNormalize (max (-1000) (min 1000 w)) * size⌋)
      = max 0 (min ((size : ℤ) - 1) ⌊mdmNormalize w * size⌋) := by
  simp only [mdmNormalize]
  rcases le_total w (-1000) with hlo | hmid
  · rw [min_eq_right (by linarith : w ≤ (1000 : ℚ)), max_eq_left hlo]
    have hL : ⌊((-1000 : ℚ) + 1000) / 2000 * size⌋ = 0 := by norm_num
    have hq : (w + 1000) / 2000 * (size : ℚ) ≤ 0 := by
      apply mul_nonpos_of_nonpos_of_nonneg
      · apply div_nonpos_of_nonpos_of_nonneg <;> linarith
      · positivity
    have hR : ⌊(w + 1000) / 2000 * (size : ℚ)⌋ ≤ 0 := Int.floor_nonpos hq
    rw [hL]
    rw [max_eq_left (le_trans (min_le_right _ _) hR),
      max_eq_left (le_trans (min_le_right _ _) le_rfl)]
  · rcases le_total w 1000 with hhi | hhi
    · rw [min_eq_right hhi, max_eq_right hmid]
    · rw [min_eq_left hhi, max_eq_right (by norm_num : (-1000 : ℚ) ≤ 1000)]
      have hL : ⌊((1000 : ℚ) + 1000) / 2000 * size⌋ = (size : ℤ) := by
        norm_num
      have hone : (1 : ℚ) ≤ (w + 1000) / 2000 := by
        rw [le_div_iff₀ (by norm_num : (0 : ℚ) < 2000)]
        linarith
      have hsq : (size : ℚ) ≤ (w + 1000) / 2000 * size := by
        nlinarith [Nat.cast_nonneg (α := ℚ) size]
      have hR : (size : ℤ) ≤ ⌊(w + 1000) / 2000 * (size : ℚ)⌋ :=
        Int.le_floor.mpr (by push_cast; exact hsq)
      rw [hL, min_eq_left (by omega), min_eq_left (by omega)]

/-! ## C8: getElevationAt is a clamped nearest-cell lookup -/

/-- C8: `getElevationAt` returns 0 whenever no elevation raster is loaded;
clamping the world point to the `-1000..1000` game bounds does not change the
result (out-of-bounds coordinates read the nearest edge cell, never
extrapolate); and the result is always a raw raster sample (or the 0
default), i.e. no interpolation happens at this layer. -/
theorem C8_getElevationAt_clamped_floor_lookup :
    (∀ x z : ℚ, getElevationAt none x z = 0) ∧
    (∀ (d : List ℚ) (x z : ℚ),
      getElevationAt (some d) (max (-1000) (min 1000 x)) (max (-1000) (min 1000 z))
        = getElevationAt (some d) x z) ∧
    (∀ (d : List ℚ) (x z : ℚ),
      getElevationAt (some d) x z ∈ d ∨ getElevationAt (some d) x z = 0) := by
  refine ⟨fun x z => rfl, ?_, ?_⟩
  · intro d x z
    simp only [getElevationAt]
    rw [clamped_cell_of_clamped_coord, clamped_cell_of_clamped_coord]
  · intro d x z
    simp only [getElevationAt, getSample]
    split
    · right
      rfl
    · rcases Nat.lt_or_ge (Int.toNat _) d.length with hlt | hge
      · rw [List.getD_eq_getElem d 0 hlt]
        exact Or.inl (List.getElem_mem hlt)
      · right
        exact List.getD_eq_default d 0 hge

/-! ## TerrainSystem height queries and elevation application -/

/-- `TerrainSystem.getHeightAt(x, z)` (part_004 lines 644-653): 0 when no
heightmap is loaded, else the bilinear heightmap sample at the normalized
position times the height scale. -/
def getHeightAt (heightmapData : Option (List ℚ)) (x z : ℚ) : ℚ :=
  match heightmapData with
  | none => 0
  | some data =>
    let u := terrainNormalize x
    let v := terrainNormalize z
    let heightmapSize := Nat.sqrt data.length
    sampleHeightmap data u v heightmapSize * terrainHeightScale

/-- The height assigned to one vertex by the main loop of
`TerrainSystem.applyElevationData` (part_004 lines 293-310): the bilinear
heightmap sample at the normalized vertex position times the height scale. -/
def appliedVertexHeight (data : List ℚ) (p : ℚ × ℚ) : ℚ :=
  let u := terrainNormalize p.1
  let v := terrainNormalize p.2
  sampleHeightmap data u v (Nat.sqrt data.length) * terrainHeightScale

/-- The flatness test of `TerrainSystem.applyElevationData` (part_004 line
318: `appliedMaxHeight - appliedMinHeight < 50`).  The source seeds the
min/max fold with plus/minus Infinity, which over a nonempty vertex list is
the list maximum/minimum, and over an empty list makes the test true. -/
def tooFlat (heights : List ℚ) : Bool :=
  match heights with
  | [] => true
  | h :: t => decide ((t.foldl max h) - (t.foldl min h) < 50)

/-- The procedural terrain of the no-heightmap branch of
`TerrainSystem.applyElevationData` (part_004 lines 245-260): a central
mountain plus layered sinusoidal undulation, kept above sea level. -/
noncomputable def proceduralVertexHeight (x z : ℚ) : ℝ :=
  let distanceFromCenter := Real.sqrt ((x : ℝ) * x + (z : ℝ) * z)
  let mountainHeight := max 0 (150 - distanceFromCenter * 0.3)
  let height := Real.sin (x * 0.01) * Real.cos (z * 0.01) * 50 +
      Real.sin (x * 0.005) * Real.cos (z * 0.005) * 30 +
      Real.sin (x * 0.02) * Real.cos (z * 0.02) * 20 + mountainHeight
  max height 0

/-- The extra height added to every vertex by the flatness-correction branch
of `TerrainSystem.applyElevationData` (part_004 lines 321-336). -/
noncomputable def dramaticVariation (x z : ℚ) : ℝ :=
  let distanceFromCenter := Real.sqrt ((x : ℝ) * x + (z : ℝ) * z)
  let mountainHeight := max 0 (200 - distanceFromCenter * 0.5)
  let proceduralHeight := Real.sin (x * 0.01) * Real.cos (z * 0.01) * 50 +
      Real.sin (x * 0.005) * Real.cos (z * 0.005) * 30 +
      Real.sin (x * 0.02) * Real.cos (z * 0.02) * 15
  proceduralHeight + mountainHeight

/-- `TerrainSystem.applyElevationData(geometry, segments)` (part_004 lines
239-342), as the list of vertex heights it assigns to the given vertex
positions: with no heightmap (or an empty one) the procedural branch runs;
otherwise each vertex receives the bilinearly sampled, scaled height, and if
the applied heights span less than 50 units the dramatic variation is added
on top of every vertex. -/
noncomputable def applyElevationData (heightmapData : Option (List ℚ))
    (positions : List (ℚ × ℚ)) : List ℝ :=
  match heightmapData with
  | none => positions.map fun p => proceduralVertexHeight p.1 p.2
  | some data =>
    if data.length = 0 then
      positions.map fun p => proceduralVertexHeight p.1 p.2
    else
      let base := positions.map (appliedVertexHeight data)
      if tooFlat base then
        (positions.zip base).map fun pb => (pb.2 : ℝ) + dramaticVariation pb.1.1 pb.1.2
      else
        base.map fun b : ℚ => (b : ℝ)

/-! ## C5: external height query versus mesh surface -/

lemma mul_ge_neg_one {a b : ℝ} (ha1 : -1 ≤ a) (ha2 : a ≤ 1)
    (hb1 : -1 ≤ b) (hb2 : b ≤ 1) : -1 ≤ a * b := by
  nlinarith

lemma dramaticVariation_pos_at_ten : 0 < dramaticVariation 10 10 := by
  have h200 : (((10 : ℚ) : ℝ) * ((10 : ℚ) : ℝ) + ((10 : ℚ) : ℝ) * ((10 : ℚ) : ℝ)) = 200 := by
    norm_num
  simp only [dramaticVariation, h200]
  have hnn := Real.sqrt_nonneg (200 : ℝ)
  have hsq := Real.sq_sqrt (show (0 : ℝ) ≤ 200 by norm_num)
  have hs : Real.sqrt 200 ≤ 15 := by nlinarith
  have hmt : (192.5 : ℝ) ≤ max 0 (200 - Real.sqrt 200 * 0.5) := by
    apply le_max_of_le_right
    nlinarith
  have h1 := mul_ge_neg_one (Real.neg_one_le_sin (((10 : ℚ) : ℝ) * 0.01))
    (Real.sin_le_one _) (Real.neg_one_le_cos (((10 : ℚ) : ℝ) * 0.01)) (Real.cos_le_one _)
  have h2 := mul_ge_neg_one (Real.neg_one_le_sin (((10 : ℚ) : ℝ) * 0.005))
    (Real.sin_le_one _) (Real.neg_one_le_cos (((10 : ℚ) : ℝ) * 0.005)) (Real.cos_le_one _)
  have h3 := mul_ge_neg_one (Real.neg_one_le_sin (((10 : ℚ) : ℝ) * 0.02))
    (Real.sin_le_one _) (Real.neg_one_le_cos (((10 : ℚ) : ℝ) * 0.02)) (Real.cos_le_one _)
  nlinarith

/-- C5 counterexample: load the all-zero 2x2 heightmap.  For the single mesh
vertex at (10, 10) the flatness correction of `applyElevationData` fires and
assigns a strictly positive height, while `getHeightAt` returns 0 there: the
external height query diverges from the mesh surface even though the
heightmap is loaded. -/
theorem C5_counterexample :
    applyElevationData (some [0, 0, 0, 0]) [(10, 10)]
      ≠ [((getHeightAt (some [0, 0, 0, 0]) 10 10 : ℚ) : ℝ)] := by
  have hbase : appliedVertexHeight [0, 0, 0, 0] ((10 : ℚ), (10 : ℚ)) = 0 := by
    norm_num [appliedVertexHeight, terrainNormalize, terrainWorldSize,
      terrainHeightScale, sampleHeightmap, getSample, min_def, max_def,
      List.getD, Int.toNat]
  have hget : getHeightAt (some [0, 0, 0, 0]) 10 10 = 0 := by
    norm_num [getHeightAt, terrainNormalize, terrainWorldSize,
      terrainHeightScale, sampleHeightmap, getSample, min_def, max_def,
      List.getD, Int.toNat]
  have hLHS : applyElevationData (some [0, 0, 0, 0]) [(10, 10)]
      = [(0 : ℝ) + dramaticVariation 10 10] := by
    simp only [applyElevationData, List.map_cons, List.map_nil, hbase]
    norm_num [tooFlat]
  rw [hLHS, hget]
  have := dramaticVariation_pos_at_ten
  simp only [ne_eq, List.cons.injEq, and_true]
  push_cast
  intro h
  linarith

/-- C5 (amended): when a nonempty heightmap is loaded and the applied vertex
heights span at least 50 units (so the flatness correction does not fire),
every vertex height produced by `applyElevationData` equals `getHeightAt` at
that vertex: the external height query agrees with the mesh surface. -/
theorem C5_heightAt_matches_mesh (data : List ℚ) (positions : List (ℚ × ℚ))
    (hne : ¬ data.length = 0)
    (hspread : tooFlat (positions.map (appliedVertexHeight data)) = false) :
    applyElevationData (some data) positions
      = positions.map fun p => ((getHeightAt (some data) p.1 p.2 : ℚ) : ℝ) := by
  simp only [applyElevationData, if_neg hne, hspread, Bool.false_eq_true,
    if_false, List.map_map]
  apply List.map_congr_left
  intro p hp
  simp [appliedVertexHeight, getHeightAt]

/-- Witness for C5 amended: the 2x2 raster `[0, 0, 0, 1]` over the two mesh
corners spans 100 height units, so the mesh heights and `getHeightAt`
coincide. -/
theorem C5_heightAt_matches_mesh_witness :
    applyElevationData (some [0, 0, 0, 1]) [(-500, -500), (500, 500)]
      = ([(-500, -500), (500, 500)] : List (ℚ × ℚ)).map
          (fun p => ((getHeightAt (some [0, 0, 0, 1]) p.1 p.2 : ℚ) : ℝ)) :=
  C5_heightAt_matches_mesh [0, 0, 0, 1] [(-500, -500), (500, 500)]
    (by norm_num)
    (by norm_num [appliedVertexHeight, terrainNormalize, terrainWorldSize,
      terrainHeightScale, sampleHeightmap, getSample, tooFlat, min_def, max_def,
      List.getD, Int.toNat])

/-! ## C6: the two world-size normalizations -/

/-- `getElevationAt` reads the raster cell obtained from `mdmNormalize`
(definitional restatement tying the normalization map to the query). -/
lemma getElevationAt_uses_mdmNormalize (d : List ℚ) (x z : ℚ) :
    getElevationAt (some d) x z =
      getSample d
        (max 0 (min ((Nat.sqrt d.length : ℤ) - 1) ⌊mdmNormalize z * Nat.sqrt d.length⌋)
            * Nat.sqrt d.length +
          max 0 (min ((Nat.sqrt d.length : ℤ) - 1) ⌊mdmNormalize x * Nat.sqrt d.length⌋)) :=
  rfl

/-- `getHeightAt` samples the heightmap at the `terrainNormalize` image
(definitional restatement tying the normalization map to the query). -/
lemma getHeightAt_uses_terrainNormalize (d : List ℚ) (x z : ℚ) :
    getHeightAt (some d) x z =
      sampleHeightmap d (terrainNormalize x) (terrainNormalize z) (Nat.sqrt d.length)
        * terrainHeightScale :=
  rfl

/-- C6: the world-to-heightmap normalization used by
`MapDataManager.getElevationAt` (world size 2000) and the one used by
`TerrainSystem` (config.worldSize = 1000) are different maps: at world
coordinate 500 the manager reads position 0.75 of the raster while the
terrain system reads the edge at 1.0. -/
theorem C6_normalizations_disagree :
    mdmNormalize 500 = 3 / 4 ∧ terrainNormalize 500 = 1 ∧
    ¬ mdmNormalize 500 = terrainNormalize 500 := by
  norm_num [mdmNormalize, terrainNormalize, terrainWorldSize]

/-! ## MapDataManager.loadMapData: single-flight loading (part_002 lines 68-116)

The JS runtime is a single-threaded event loop: an async function runs
synchronously between await points.  `loadMapData` is modelled as a task
state machine whose atomic steps are exactly the segments between suspension
points, with the manager fields (`isLoading`, `mapData`) and a count of the
calls into `ViimsiMapLoader.loadViimsiData` as shared state.  `r` abstracts
the (deterministic, transformed) map data value a completed load stores. -/

/-- The position of one caller inside `loadMapData`. -/
inductive TaskState (α : Type) where
  | notStarted
  | waiting
  | fetching
  | done (result : Option α)
deriving DecidableEq

/-- Shared manager state plus the two concurrent callers. -/
structure LoadSys (α : Type) where
  isLoading : Bool
  mapData : Option α
  loaderCalls : ℕ
  task1 : TaskState α
  task2 : TaskState α
deriving DecidableEq

/-- One atomic step of a caller:
* `notStarted` runs the synchronous prefix (lines 69-83): with a load in
  progress it enters the polling loop, otherwise it sets `isLoading` and
  issues the one call into `ViimsiMapLoader.loadViimsiData` (counted),
  suspending at the await;
* `waiting` runs one turn of the polling loop (lines 72-75): it keeps
  waiting while `isLoading`, else returns `this.mapData`;
* `fetching` resumes after the await (lines 86-115): it stores the
  transformed snapshot, clears `isLoading` in the `finally`, and returns
  the snapshot;
* `done` is terminal. -/
def stepTask {α : Type} (r : α) (s : LoadSys α) (t : TaskState α) :
    TaskState α × LoadSys α :=
  match t with
  | .notStarted =>
    if s.isLoading then (.waiting, s)
    else (.fetching, { s with isLoading := true, loaderCalls := s.loaderCalls + 1 })
  | .waiting =>
    if s.isLoading then (.waiting, s) else (.done s.mapData, s)
  | .fetching =>
    (.done (some r), { s with mapData := some r, isLoading := false })
  | .done x => (.done x, s)

/-- Scheduler: run one atomic step of caller 1 (`true`) or caller 2
(`false`). -/
def stepSys {α : Type} (r : α) (s : LoadSys α) (which : Bool) : LoadSys α :=
  if which then
    let ts := stepTask r s s.task1
    { ts.2 with task1 := ts.1 }
  else
    let ts := stepTask r s s.task2
    { ts.2 with task2 := ts.1 }

/-- Run a whole interleaving. -/
def runSched {α : Type} (r : α) (s : LoadSys α) (sched : List Bool) : LoadSys α :=
  sched.foldl (stepSys r) s

/-- The state just after `loadMapData` has been called a second time while
the first call is still in flight: the first caller holds the loading flag
and has issued the single loader call; the second caller observed
`isLoading` in its synchronous prefix and sits in the polling loop. -/
def concurrentInit (α : Type) : LoadSys α :=
  { isLoading := true, mapData := none, loaderCalls := 1,
    task1 := .fetching, task2 := .waiting }

/-- Invariant of every state reachable from `concurrentInit`: exactly one
loader call ever happens, and the system is either still in flight or
completed with both callers seeing the same stored snapshot. -/
def LoadInv {α : Type} (r : α) (s : LoadSys α) : Prop :=
  s.loaderCalls = 1 ∧
  ((s.isLoading = true ∧ s.mapData = none ∧ s.task1 = .fetching ∧ s.task2 = .waiting) ∨
   (s.isLoading = false ∧ s.mapData = some r ∧ s.task1 = .done (some r) ∧
     (s.task2 = .waiting ∨ s.task2 = .done (some r))))

lemma loadInv_step {α : Type} (r : α) (s : LoadSys α) (w : Bool)
    (h : LoadInv r s) : LoadInv r (stepSys r s w) := by
  obtain ⟨hc, hcase⟩ := h
  rcases hcase with ⟨hl, hm, h1, h2⟩ | ⟨hl, hm, h1, h2⟩
  · cases w <;> simp [LoadInv, stepSys, stepTask, h1, h2, hl, hm, hc]
  · rcases h2 with h2 | h2 <;>
      cases w <;> simp [LoadInv, stepSys, stepTask, h1, h2, hl, hm, hc]

lemma loadInv_run {α : Type} (r : α) (sched : List Bool) :
    ∀ s : LoadSys α, LoadInv r s → LoadInv r (runSched r s sched) := by
  induction sched with
  | nil => exact fun s h => h
  | cons w t ih =>
    intro s h
    have hstep : runSched r s (w :: t) = runSched r (stepSys r s w) t := rfl
    rw [hstep]
    exact ih _ (loadInv_step r s w h)

/-! ## C3: two concurrent loads, one provider call -/

/-- C3: when `loadMapData` is called while a previous call is still in
flight, then under every event-loop interleaving in which both callers
complete, the loader was invoked exactly once and both callers resolve to
the same snapshot (the one stored by the in-flight load). -/
theorem C3_single_flight {α : Type} (r : α) (sched : List Bool) (x y : Option α)
    (h1 : (runSched r (concurrentInit α) sched).task1 = .done x)
    (h2 : (runSched r (concurrentInit α) sched).task2 = .done y) :
    (runSched r (concurrentInit α) sched).loaderCalls = 1 ∧
    x = y ∧ x = some r := by
  have hinv := loadInv_run r sched (concurrentInit α)
    (by simp [LoadInv, concurrentInit])
  obtain ⟨hc, hcase⟩ := hinv
  rcases hcase with ⟨hl, hm, ht1, ht2⟩ | ⟨hl, hm, ht1, ht2⟩
  · rw [ht1] at h1
    simp at h1
  · rcases ht2 with ht2 | ht2
    · rw [ht2] at h2
      simp at h2
    · rw [ht1] at h1
      rw [ht2] at h2
      simp only [TaskState.done.injEq] at h1 h2
      exact ⟨hc, by rw [← h1, ← h2], h1.symm⟩

/-- Witness for C3 on the concrete schedule where the in-flight load
completes and then the waiting caller returns. -/
theorem C3_single_flight_witness :
    (runSched 0 (concurrentInit ℕ) [true, false]).loaderCalls = 1 ∧
    (some 0 : Option ℕ) = some 0 ∧ (some 0 : Option ℕ) = some 0 :=
  C3_single_flight 0 [true, false] (some 0) (some 0) rfl rfl

/-! ## C7: ViimsiMapLoader.loadViimsiData aggregation -/

/-- The aggregate produced by `loadViimsiData` (entity payloads kept
abstract). -/
structure RawMapData (ε β ρ φ : Type) where
  elevation : Option ε
  buildings : List β
  roads : List ρ
  forests : List φ
  bounds : GeoBounds
  timestamp : ℕ

/-- `ViimsiMapLoader.loadViimsiData()` (ViimsiMapLoader.js lines 41-73) over
the settled outcomes of its four concurrent sub-fetches:
`Promise.allSettled` itself never rejects and delivers each outcome as
fulfilled (`.ok`) or rejected (`.error`); the aggregation is plain object
construction, so the surrounding try/catch never reaches its rethrow path
and the call always resolves. -/
def loadViimsiData {ε β ρ φ E : Type} (now : ℕ)
    (elevation : Except E ε) (buildings : Except E (List β))
    (roads : Except E (List ρ)) (forests : Except E (List φ)) :
    Except E (RawMapData ε β ρ φ) :=
  Except.ok
    { elevation := match elevation with | .ok v => some v | .error _ => none
      buildings := match buildings with | .ok v => v | .error _ => []
      roads := match roads with | .ok v => v | .error _ => []
      forests := match forests with | .ok v => v | .error _ => []
      bounds := viimsiParishBounds
      timestamp := now }

/-- C7: for every combination of sub-fetch outcomes, `loadViimsiData`
resolves (never rejects), substituting `none` for a failed elevation fetch
and the empty list for failed buildings/roads/forests fetches while keeping
every fulfilled value. -/
theorem C7_loadViimsiData_never_rejects {ε β ρ φ E : Type} (now : ℕ)
    (elevation : Except E ε) (buildings : Except E (List β))
    (roads : Except E (List ρ)) (forests : Except E (List φ)) :
    ∃ m : RawMapData ε β ρ φ,
      loadViimsiData now elevation buildings roads forests = Except.ok m ∧
      (∀ v, elevation = .ok v → m.elevation = some v) ∧
      (∀ e, elevation = .error e → m.elevation = none) ∧
      (∀ v, buildings = .ok v → m.buildings = v) ∧
      (∀ e, buildings = .error e → m.buildings = []) ∧
      (∀ v, roads = .ok v → m.roads = v) ∧
      (∀ e, roads = .error e → m.roads = []) ∧
      (∀ v, forests = .ok v → m.forests = v) ∧
      (∀ e, forests = .error e → m.forests = []) := by
  refine ⟨_, rfl, ?_, ?_, ?_, ?_, ?_, ?_, ?_, ?_⟩ <;> intro v hv <;> simp [hv]

/-- Witness for C7 with elevation and roads failing and the other two
fulfilled. -/
theorem C7_loadViimsiData_never_rejects_witness :
    ∃ m : RawMapData ℕ ℕ ℕ ℕ,
      @loadViimsiData ℕ ℕ ℕ ℕ String 7 (.error "elev failed") (.ok [3])
          (.error "roads failed") (.ok []) = Except.ok m ∧
      m.elevation = none ∧ m.buildings = [3] ∧ m.roads = [] ∧ m.forests = [] := by
  obtain ⟨m, hok, _, he, hb, _, _, hr, hf, _⟩ :=
    @C7_loadViimsiData_never_rejects ℕ ℕ ℕ ℕ String 7 (.error "elev failed")
      (.ok [3]) (.error "roads failed") (.ok [])
  exact ⟨m, hok, he _ rfl, hb _ rfl, hr _ rfl, hf _ rfl⟩

/-! ## MapDataManager spatial queries (part_002 lines 300-376) -/

/-- A transformed building as consumed by the spatial queries: its
`gamePosition` x/z plus an id standing for the remaining fields. -/
structure Building where
  x : ℚ
  z : ℚ
  id : ℕ
deriving DecidableEq

/-- A transformed road: its `gameGeometry` vertex list plus an id. -/
structure Road where
  gameGeometry : List (ℚ × ℚ)
  id : ℕ
deriving DecidableEq

/-- The transformed snapshot fields consumed by the spatial queries. -/
structure GameMapData where
  elevation : Option (List ℚ)
  buildings : List Building
  roads : List Road
deriving DecidableEq

/-- The in-radius test of the spatial queries.  The source computes
`Math.sqrt(dx*dx + dz*dz) <= radius`; for a nonnegative radius this is
equivalent to `dx*dx + dz*dz <= radius*radius` (lemma `sqrt_dist_le_iff`),
which keeps the predicate decidable. -/
def withinRadius (dx dz radius : ℚ) : Bool :=
  decide (dx * dx + dz * dz ≤ radius * radius)

/-- The square-free and square forms of the radius test agree. -/
lemma sqrt_dist_le_iff (dx dz radius : ℝ) (h : 0 ≤ radius) :
    Real.sqrt (dx * dx + dz * dz) ≤ radius ↔ dx * dx + dz * dz ≤ radius * radius := by
  constructor
  · intro hle
    have hnn : (0 : ℝ) ≤ dx * dx + dz * dz := by nlinarith
    have hsq := Real.sq_sqrt hnn
    nlinarith [Real.sqrt_nonneg (dx * dx + dz * dz)]
  · intro hle
    have h1 : Real.sqrt (dx * dx + dz * dz) ≤ Real.sqrt (radius * radius) :=
      Real.sqrt_le_sqrt hle
    rwa [show radius * radius = radius ^ 2 by ring, Real.sqrt_sq h] at h1

/-- `MapDataManager.getBuildingsInArea(centerX, centerZ, radius)` (part_002
lines 300-309): distance filter over the snapshot, in data order. -/
def getBuildingsInArea (mapData : Option GameMapData) (centerX centerZ radius : ℚ) :
    List Building :=
  match mapData with
  | none => []
  | some md =>
    md.buildings.filter fun building =>
      withinRadius (building.x - centerX) (building.z - centerZ) radius

/-- `MapDataManager.getRoadsInArea(centerX, centerZ, radius)` (part_002
lines 318-329): keeps a road when some vertex of its game geometry is within
the radius. -/
def getRoadsInArea (mapData : Option GameMapData) (centerX centerZ radius : ℚ) :
    List Road :=
  match mapData with
  | none => []
  | some md =>
    md.roads.filter fun road =>
      road.gameGeometry.any fun point =>
        withinRadius (point.1 - centerX) (point.2 - centerZ) radius

/-- `MapDataManager.isInViimsiParish(lat, lon)` (part_002 lines 384-388). -/
def isInViimsiParish (lat lon : ℚ) : Bool :=
  decide (viimsiParishBounds.south ≤ lat) && decide (lat ≤ viimsiParishBounds.north) &&
  decide (viimsiParishBounds.west ≤ lon) && decide (lon ≤ viimsiParishBounds.east)

/-- The record returned by `MapDataManager.getLocationInfo`. -/
structure LocationInfo where
  gameX : ℚ
  gameZ : ℚ
  realLat : ℚ
  realLon : ℚ
  elevation : ℚ
  nearbyBuildings : List Building
  nearbyRoads : List Road
  inViimsiParish : Bool
deriving DecidableEq

/-- `MapDataManager.getLocationInfo(x, z)` (part_002 lines 362-376):
composite query.  `nearbyBuildings.slice(0, 5)` and `nearbyRoads.slice(0, 3)`
keep the first elements of the radius filters in data order (the adjacent
comments say closest, but nothing sorts by distance). -/
def getLocationInfo (mapData : Option GameMapData) (x z : ℚ) : LocationInfo :=
  let realWorldCoords := gameWorldToRealWorld x z
  let elevation :=
    getElevationAt (match mapData with | none => none | some md => md.elevation) x z
  let nearbyBuildings := getBuildingsInArea mapData x z 100
  let nearbyRoads := getRoadsInArea mapData x z 50
  { gameX := x, gameZ := z,
    realLat := realWorldCoords.1, realLon := realWorldCoords.2,
    elevation := elevation,
    nearbyBuildings := nearbyBuildings.take 5,
    nearbyRoads := nearbyRoads.take 3,
    inViimsiParish := isInViimsiParish realWorldCoords.1 realWorldCoords.2 }

/-! ## C9: getLocationInfo does not return the nearest entities -/

/-- Six buildings inside radius 100 of the origin, in data order at
distances 90, 10, 20, 30, 40, 50. -/
def demoMapData : GameMapData :=
  { elevation := none,
    buildings := [⟨90, 0, 1⟩, ⟨10, 0, 2⟩, ⟨20, 0, 3⟩, ⟨30, 0, 4⟩, ⟨40, 0, 5⟩, ⟨50, 0, 6⟩],
    roads := [] }

/-- C9: the buildings returned by `getLocationInfo` are not the nearest
ones: over `demoMapData` the five returned buildings include the
distance-90 building (first in data order) and exclude the strictly closer
distance-50 building. -/
theorem C9_locationInfo_not_nearest :
    Building.mk 90 0 1 ∈ (getLocationInfo (some demoMapData) 0 0).nearbyBuildings ∧
    Building.mk 50 0 6 ∉ (getLocationInfo (some demoMapData) 0 0).nearbyBuildings ∧
    ((50 : ℚ) - 0) * ((50 : ℚ) - 0) + (0 - 0) * (0 - 0)
      < ((90 : ℚ) - 0) * ((90 : ℚ) - 0) + (0 - 0) * (0 - 0) := by
  have hb : (getLocationInfo (some demoMapData) 0 0).nearbyBuildings
      = [⟨90, 0, 1⟩, ⟨10, 0, 2⟩, ⟨20, 0, 3⟩, ⟨30, 0, 4⟩, ⟨40, 0, 5⟩] := by
    norm_num [getLocationInfo, demoMapData, getBuildingsInArea, withinRadius,
      List.filter_cons]
  refine ⟨?_, ?_, by norm_num⟩
  · rw [hb]
    simp
  · rw [hb]
    norm_num [Building.mk.injEq]

/-! ## C10: out-of-range switchLOD is a no-op -/

/-- One generated LOD mesh: its three.js `visible` flag plus the
`userData.lodLevel` tag. -/
structure LODMesh where
  visible : Bool
  lodLevel : ℕ
deriving DecidableEq

/-- The `TerrainSystem` fields touched by `switchLOD`; `terrainMesh` is the
index of the mesh the field references, `lastLODSwitch` stores a clock
reading. -/
structure TerrainLODState where
  lodMeshes : List LODMesh
  currentLOD : ℕ
  terrainMesh : Option ℕ
  lodSwitches : ℕ
  lastLODSwitch : ℕ
deriving DecidableEq

/-- Set the `visible` flag of the mesh at index `i` (a no-op when the index
is out of range, like the guarded `if (this.lodMeshes[this.currentLOD])`). -/
def setMeshVisible (meshes : List LODMesh) (i : ℕ) (vis : Bool) : List LODMesh :=
  meshes.mapIdx fun j m => if j = i then { m with visible := vis } else m

/-- `TerrainSystem.switchLOD(newLOD)` (part_004 lines 618-636): early return
for an out-of-range index; otherwise hide the current mesh, show the new
one, move `currentLOD` and `terrainMesh`, bump the switch counter and store
the switch time (`now` abstracts `Date.now()`). -/
def switchLOD (s : TerrainLODState) (newLOD : ℤ) (now : ℕ) : TerrainLODState :=
  if newLOD < 0 ∨ (s.lodMeshes.length : ℤ) ≤ newLOD then s
  else
    { s with
      lodMeshes :=
        setMeshVisible (setMeshVisible s.lodMeshes s.currentLOD false) newLOD.toNat true,
      currentLOD := newLOD.toNat,
      terrainMesh := some newLOD.toNat,
      lodSwitches := s.lodSwitches + 1,
      lastLODSwitch := now }

/-- C10: for every index below 0 or at/above the number of generated LOD
meshes, `switchLOD` leaves the whole terrain state unchanged: `currentLOD`,
`terrainMesh`, every visible flag and the `lodSwitches` counter. -/
theorem C10_switchLOD_out_of_range_noop (s : TerrainLODState) (newLOD : ℤ) (now : ℕ)
    (h : newLOD < 0 ∨ (s.lodMeshes.length : ℤ) ≤ newLOD) :
    switchLOD s newLOD now = s := by
  simp [switchLOD, h]

/-- Witness for C10: switching to LOD 5 with two meshes changes nothing. -/
theorem C10_switchLOD_out_of_range_noop_witness :
    switchLOD ⟨[⟨true, 0⟩, ⟨false, 1⟩], 0, some 0, 0, 0⟩ 5 99
      = ⟨[⟨true, 0⟩, ⟨false, 1⟩], 0, some 0, 0, 0⟩ :=
  C10_switchLOD_out_of_range_noop ⟨[⟨true, 0⟩, ⟨false, 1⟩], 0, some 0, 0, 0⟩ 5 99
    (Or.inr (by decide))

end VG
